import Mathlib

/-!
Shallow embedding of the loop memory-dependence analysis in
src/lib/Analysis/LoopAccessAnalysis.cpp, together with proofs checking the
natural-language specification against it.

External collaborators (scalar evolution, alias analysis, the IR itself) are
abstracted exactly at the interfaces the source uses: a pointer is represented
by the observations the analysis makes of it (element type, address space,
in-bounds flag, the shape of its rewritten SCEV), and the symbolic difference
of two pointer expressions is an oracle-provided optional integer.
Machine `unsigned` values are modelled as Nat with an explicit mod 2^32 at the
two places where a 64-bit quantity is truncated to `unsigned`.
-/

namespace LAA

/-- An LLVM first-class type as observed by the analysis: an identity (so that
distinct types of equal allocation size exist, e.g. i32 vs float) and its
allocation size in bytes (DataLayout::getTypeAllocSize). -/
structure LLVMType where
  id : Nat
  allocSize : Nat
deriving DecidableEq, Repr

/-- The step recurrence of an add-recurrence, as observed through
dyn_cast to SCEVConstant: either not a constant, or a constant with a bit
width and its sign-extended integer value. -/
inductive StepSCEV where
  | nonConst : StepSCEV
  | const (bitWidth : Nat) (val : Int) : StepSCEV
deriving DecidableEq, Repr

/-- The shape of a pointer's rewritten SCEV as observed by the analysis:
either not an add-recurrence, or an add-recurrence over some loop (identified
by a numeric id) with its no-wrap flag and step. -/
inductive PtrSCEV where
  | notAddRec : PtrSCEV
  | addRec (loopId : Nat) (noWrap : Bool) (step : StepSCEV) : PtrSCEV
deriving DecidableEq, Repr

/-- Everything isStridedPtr / isDependent observe about one pointer. -/
structure PtrInfo where
  elemTy : LLVMType
  elemIsAggregate : Bool
  addrSpace : Nat
  isInBoundsGep : Bool
  scev : PtrSCEV
deriving DecidableEq, Repr

/-- The process-wide vectorizer options (force-vector-width,
force-vector-interleave); zero means autoselect. -/
structure VParams where
  vectorizationFactor : Nat
  vectorizationInterleave : Nat
deriving DecidableEq, Repr

/-- VectorizerParams::MaxVectorWidth. -/
def maxVectorWidth : Nat := 64

/-- The initial MaxSafeDepDistBytes value, -1U as a 32-bit unsigned. -/
def uintMax : Nat := 4294967296 - 1

/-- Embedding of the static isStridedPtr (LoopAccessAnalysis.cpp:588-666).
Returns the constant element stride of the pointer, 0 meaning "not usable".
The source compares the add-recurrence's loop with the analyzed loop `loopId`
at line 611 but the body of that `if` only emits a debug message (the
`return 0` is missing), so `loopId` has no effect on the result; the
parameter is kept to mirror the source's signature. -/
def isStridedPtr (loopId : Nat) (p : PtrInfo) : Int :=
  -- Make sure that the pointer does not point to aggregate types.
  if p.elemIsAggregate then 0
  else
    match p.scev with
    | .notAddRec => 0
    | .addRec _arLoop noWrap step =>
      -- line 611: `if (Lp != AR->getLoop())` has an empty (debug-only) body.
      -- The address calculation must not wrap.
      if ¬ noWrap ∧ ¬ p.isInBoundsGep ∧ p.addrSpace ≠ 0 then 0
      else
        match step with
        | .nonConst => 0
        | .const bitWidth stepVal =>
          -- Huge step value - give up.
          if 64 < bitWidth then 0
          else
            let size : Int := (p.elemTy.allocSize : Int)
            -- C++ int64_t division truncates toward zero: Int.tdiv / Int.tmod.
            let stride := Int.tdiv stepVal size
            let rem := Int.tmod stepVal size
            if rem ≠ 0 then 0
            else if ¬ noWrap ∧ (p.isInBoundsGep ∨ p.addrSpace = 0) ∧
                    stride ≠ 1 ∧ stride ≠ -1 then 0
            else stride

/-- The inner scan of MemoryDepChecker::couldPreventStoreLoadForward
(lines 686-692): starting from vf, repeatedly double while vf ≤ bound, and
return the first vf at which forwarding is broken
(Distance mod vf ≠ 0 and Distance / vf < 8 * TypeByteSize). -/
def slfFirstBroken (d T bound : Nat) (vf : Nat) : Option Nat :=
  if vf = 0 then none
  else if bound < vf then none
  else if d % vf ≠ 0 ∧ d / vf < 8 * T then some vf
  else slfFirstBroken d T bound (2 * vf)
termination_by bound + 1 - vf
decreasing_by omega

/-- Embedding of MemoryDepChecker::couldPreventStoreLoadForward
(lines 668-705). Takes the current MaxSafeDepDistBytes, the distance and the
type byte size; returns (result, updated MaxSafeDepDistBytes). -/
def couldPreventStoreLoadForward (ms d T : Nat) : Bool × Nat :=
  let maxVF0 := if ms < maxVectorWidth * T then ms else maxVectorWidth * T
  let maxVF :=
    match slfFirstBroken d T maxVF0 (2 * T) with
    | some vf => vf / 2
    | none => maxVF0
  if maxVF < 2 * T then (true, ms)
  else if maxVF < ms ∧ maxVF ≠ maxVectorWidth * T then (false, maxVF)
  else (false, ms)

/-- The arguments of one MemoryDepChecker::isDependent pair check after the
negative-stride swap at lines 737-745: access kinds, pointee types, strides
and the (possibly negated) symbolic distance. -/
structure DepQ where
  aW : Bool
  bW : Bool
  aTy : LLVMType
  bTy : LLVMType
  sA : Int
  sB : Int
  dist : Option Int
deriving DecidableEq, Repr

/-- The outcome of one isDependent call: the returned bool (true = possible
dependence, i.e. unsafe), the updated MaxSafeDepDistBytes, and whether this
call set ShouldRetryWithRuntimeCheck. -/
structure DepResult where
  isDep : Bool
  maxSafe : Nat
  retry : Bool
deriving DecidableEq, Repr

/-- The swap of source and sink performed by isDependent when the stride of
the earlier access is negative (lines 737-745): pointers (hence pointee
types), write flags and strides are swapped, and the oracle distance
Sink - Src changes sign. `distBA` is the symbolic difference
BScev - AScev, `none` when it is not a compile-time constant. -/
def depSwapped (loopId : Nat) (A B : PtrInfo) (aW bW : Bool)
    (distBA : Option Int) : DepQ :=
  let sA := isStridedPtr loopId A
  let sB := isStridedPtr loopId B
  if sA < 0 then
    ⟨bW, aW, B.elemTy, A.elemTy, sB, sA, distBA.map (fun v => -v)⟩
  else
    ⟨aW, bW, A.elemTy, B.elemTy, sA, sB, distBA⟩

/-- The negative-distance case of isDependent (lines 773-784): an
anti-dependence in analysis order is safe unless it is a true data
dependence that breaks store-to-load forwarding or mixes access types.
The cast of the 64-bit absolute distance to `unsigned` is mod 2^32. -/
def depCoreNeg (ms : Nat) (q : DepQ) (v : Int) : DepResult :=
  if q.aW = true ∧ q.bW = false then
    let r := couldPreventStoreLoadForward ms (v.natAbs % 4294967296)
      q.aTy.allocSize
    if r.1 = true ∨ q.aTy ≠ q.bTy then ⟨true, r.2, false⟩
    else ⟨false, r.2, false⟩
  else ⟨false, ms, false⟩

/-- The positive-distance case of isDependent (lines 797-834): unequal
types are accepted outright; otherwise the distance must reach 2·T, the
current MaxSafeDepDistBytes must allow 2·T, the forced factors must fit,
and a true flow dependence must not break store-to-load forwarding.
The cast of the 64-bit distance to `unsigned` is mod 2^32. -/
def depCorePos (cfg : VParams) (ms : Nat) (q : DepQ) (v : Int) : DepResult :=
  if q.aTy ≠ q.bTy then ⟨false, ms, false⟩
  else
    let T := q.aTy.allocSize
    let distance := v.toNat % 4294967296
    let forcedFactor :=
      if cfg.vectorizationFactor = 0 then 1 else cfg.vectorizationFactor
    let forcedUnroll :=
      if cfg.vectorizationInterleave = 0 then 1
      else cfg.vectorizationInterleave
    if distance < 2 * T ∨ ms < 2 * T ∨
       distance < T * forcedUnroll * forcedFactor then ⟨true, ms, false⟩
    else
      let ms' := if distance < ms then distance else ms
      if q.aW = false ∧ q.bW = true then
        let r := couldPreventStoreLoadForward ms' distance T
        if r.1 = true then ⟨true, r.2, false⟩ else ⟨false, r.2, false⟩
      else ⟨false, ms', false⟩

/-- The body of MemoryDepChecker::isDependent after the swap (lines 747-834):
the equal-non-zero-stride requirement, the constant-distance requirement
(failing it sets the retry flag), and the negative / zero / positive distance
cases. `ms` is the incoming MaxSafeDepDistBytes. -/
def depCore (cfg : VParams) (ms : Nat) (q : DepQ) : DepResult :=
  -- Need consecutive accesses with equal strides.
  if q.sA = 0 ∨ q.sB = 0 ∨ q.sA ≠ q.sB then ⟨true, ms, false⟩
  else
    match q.dist with
    | none => ⟨true, ms, true⟩ -- non-constant distance: retry with RT check
    | some v =>
      if v < 0 then depCoreNeg ms q v
      else if v = 0 then
        -- Write to the same location with the same size.
        (if q.aTy = q.bTy then ⟨false, ms, false⟩ else ⟨true, ms, false⟩)
      else depCorePos cfg ms q v

/-- Embedding of MemoryDepChecker::isDependent (lines 707-835). `A` occurs
strictly earlier in program order than `B`; `distBA` is the scalar-evolution
difference BScev - AScev (none when not a compile-time constant). -/
def isDependent (cfg : VParams) (loopId : Nat) (ms : Nat) (A B : PtrInfo)
    (aW bW : Bool) (distBA : Option Int) : DepResult :=
  -- Two reads are independent.
  if aW = false ∧ bW = false then ⟨false, ms, false⟩
  -- We cannot check pointers in different address spaces.
  else if A.addrSpace ≠ B.addrSpace then ⟨true, ms, false⟩
  else depCore cfg ms (depSwapped loopId A B aW bW distBA)

/-- One ordered access pair as fed to isDependent by the class traversal of
MemoryDepChecker::areDepsSafe. -/
structure DepPairArgs where
  A : PtrInfo
  B : PtrInfo
  aW : Bool
  bW : Bool
  distBA : Option Int
deriving DecidableEq, Repr

/-- The pair loop of MemoryDepChecker::areDepsSafe: check the pairs in order,
threading MaxSafeDepDistBytes and the sticky retry flag, and return false at
the first dependent pair (as the source does). -/
def areDepsSafeGo (cfg : VParams) (loopId : Nat) :
    List DepPairArgs → Nat → Bool → Bool × Nat × Bool
  | [], ms, retry => (true, ms, retry)
  | p :: rest, ms, retry =>
    let r := isDependent cfg loopId ms p.A p.B p.aW p.bW p.distBA
    if r.isDep then (false, r.maxSafe, retry || r.retry)
    else areDepsSafeGo cfg loopId rest r.maxSafe (retry || r.retry)

/-- Embedding of MemoryDepChecker::areDepsSafe (lines 837-874):
MaxSafeDepDistBytes starts at -1U and the pairs of the dependence-candidate
classes are checked in order. Returns (safe, MaxSafeDepDistBytes, retry). -/
def areDepsSafe (cfg : VParams) (loopId : Nat) (pairs : List DepPairArgs) :
    Bool × Nat × Bool :=
  areDepsSafeGo cfg loopId pairs uintMax false

/-- One entry of the runtime-check descriptor
(LoopAccessInfo::RuntimePointerCheck, parallel arrays in the source packed
into a structure per index). `addrSpace` is the pointer's address space,
queried by the final cross-address-space scan of canCheckPtrAtRT. -/
structure RTEntry where
  ptr : Nat
  isWrite : Bool
  depSetId : Nat
  aliasSetId : Nat
  addrSpace : Nat
deriving DecidableEq, Repr

/-- Embedding of LoopAccessInfo::RuntimePointerCheck::needsChecking
(lines 123-138) on two descriptor entries. -/
def needsChecking (e f : RTEntry) : Bool :=
  -- No need to check if two readonly pointers intersect.
  if e.isWrite = false ∧ f.isWrite = false then false
  -- Only need to check pointers between two different dependency sets.
  else if e.depSetId = f.depSetId then false
  -- Only need to check pointers in the same alias set.
  else if e.aliasSetId ≠ f.aliasSetId then false
  else true

/-- One pointer of an alias set as seen by AccessAnalysis::canCheckPtrAtRT:
its identity, whether a write access through it exists, its observable
analysis data, and the id of its dependence-candidate union-find leader. -/
structure RTPtr where
  ptr : Nat
  isWrite : Bool
  info : PtrInfo
  leader : Nat
deriving DecidableEq, Repr

/-- Embedding of the static hasComputableBounds (lines 243-251): the
rewritten SCEV must be an (affine) add-recurrence. In this model an
add-recurrence is affine by construction. -/
def hasComputableBounds (p : PtrInfo) : Bool :=
  match p.scev with
  | .addRec _ _ _ => true
  | .notAddRec => false

/-- The per-alias-set loop state of canCheckPtrAtRT: the read/write pointer
counts, the running dependence-set id, the leader-to-id map (DenseMap
DepSetId), the threaded CanDoRT flag and the descriptor entries added. -/
structure ASAcc where
  numRead : Nat
  numWrite : Nat
  runningDepId : Nat
  depMap : List (Nat × Nat)
  canDoRT : Bool
  entries : List RTEntry
deriving DecidableEq, Repr

/-- Lookup in the leader-to-dependence-set-id map; `none` models the
DenseMap default value 0 (no id assigned yet). -/
def lookupDepId (m : List (Nat × Nat)) (k : Nat) : Option Nat :=
  (m.find? (fun x => x.1 = k)).map (fun x => x.2)

/-- The bounds / dependence-set-id part of the per-pointer loop of
canCheckPtrAtRT (lines 291-314), after the read/write counters have been
bumped. -/
def rtStepBody (loopId : Nat) (depNeeded shouldCheckStride : Bool)
    (asid : Nat) (acc : ASAcc) (a : RTPtr) : ASAcc :=
  if hasComputableBounds a.info = true ∧
     (shouldCheckStride = false ∨ isStridedPtr loopId a.info = 1) then
    if depNeeded then
      match lookupDepId acc.depMap a.leader with
      | some id =>
        { acc with entries :=
            acc.entries ++ [⟨a.ptr, a.isWrite, id, asid, a.info.addrSpace⟩] }
      | none =>
        { acc with
            runningDepId := acc.runningDepId + 1
            depMap := acc.depMap ++ [(a.leader, acc.runningDepId)]
            entries := acc.entries ++
              [⟨a.ptr, a.isWrite, acc.runningDepId, asid, a.info.addrSpace⟩] }
    else
      -- Each access has its own dependence set.
      { acc with
          runningDepId := acc.runningDepId + 1
          entries := acc.entries ++
            [⟨a.ptr, a.isWrite, acc.runningDepId, asid, a.info.addrSpace⟩] }
  else { acc with canDoRT := false }

/-- The body of the per-pointer loop in canCheckPtrAtRT (lines 281-315):
bump the read or write counter, then run the bounds / dependence-id part. -/
def rtStepPtr (loopId : Nat) (depNeeded shouldCheckStride : Bool)
    (asid : Nat) (acc : ASAcc) (a : RTPtr) : ASAcc :=
  rtStepBody loopId depNeeded shouldCheckStride asid
    (if a.isWrite then { acc with numWrite := acc.numWrite + 1 }
     else { acc with numRead := acc.numRead + 1 }) a

/-- Process one alias set (the body of the outer loop of canCheckPtrAtRT,
lines 272-325), starting from the incoming CanDoRT flag. Returns the final
per-set accumulator and the number of comparisons added for this set. -/
def rtProcessSet (loopId : Nat) (depNeeded shouldCheckStride : Bool)
    (asid : Nat) (canDoRT : Bool) (as : List RTPtr) : ASAcc × Nat :=
  let acc := as.foldl (rtStepPtr loopId depNeeded shouldCheckStride asid)
    ⟨0, 0, 1, [], canDoRT, []⟩
  let added :=
    if depNeeded = true ∧ acc.canDoRT = true ∧ acc.runningDepId = 2 then 0
    else acc.numWrite * (acc.numRead + acc.numWrite - 1)
  (acc, added)

/-- The cross-address-space scan at the end of canCheckPtrAtRT
(lines 332-353): some pair of entries in different dependence sets but the
same alias set has pointers in different address spaces. -/
def rtHasASConflict : List RTEntry → Bool
  | [] => false
  | e :: rest =>
    rest.any (fun f =>
      decide (e.depSetId ≠ f.depSetId ∧ e.aliasSetId = f.aliasSetId ∧
              e.addrSpace ≠ f.addrSpace)) || rtHasASConflict rest

/-- Embedding of AccessAnalysis::canCheckPtrAtRT (lines 258-356). The alias
sets are the partition produced by the alias-set tracker; `depNeeded` is
isDependencyCheckNeeded() at the time of the call. Returns
(CanDoRT, NumComparisons, the descriptor entries inserted). -/
def canCheckPtrAtRT (loopId : Nat) (depNeeded : Bool)
    (aliasSets : List (List RTPtr)) (shouldCheckStride : Bool) :
    Bool × Nat × List RTEntry :=
  let st := aliasSets.foldl
    (fun (st : Bool × Nat × List RTEntry × Nat) as =>
      let r := rtProcessSet loopId depNeeded shouldCheckStride st.2.2.2 st.1 as
      (r.1.canDoRT, st.2.1 + r.2, st.2.2.1 ++ r.1.entries, st.2.2.2 + 1))
    (true, 0, [], 1)
  if rtHasASConflict st.2.2.1 then (false, st.2.1, st.2.2.1)
  else (st.1, st.2.1, st.2.2.1)

/-- The observable result of LoopAccessInfo::analyzeLoop: CanVecMem,
PtrRtCheck.Need, the surviving descriptor entries, MaxSafeDepDistBytes, plus
two control-flow observations used by the error-handling claims: whether the
runtime-check builder was re-run in stride-checking mode and whether the
dependence-check state was cleared (Accesses.resetDepChecks). -/
structure DriverOut where
  canVecMem : Bool
  need : Bool
  entries : List RTEntry
  maxSafe : Nat
  ranStrideBuilder : Bool
  clearedDepChecks : Bool
deriving DecidableEq, Repr

/-- Modelled from the spec: RuntimePointerCheck::reset is only declared in
this repository (its body lives in the header, which is not under src/).
Per the data-model section, resetting discards the runtime descriptor and
the need_runtime_check flag: it yields an empty entry list and Need = false. -/
def rtReset : List RTEntry × Bool := ([], false)

/-- The runtime-check step of the main phase of LoopAccessInfo::analyzeLoop
(lines 1095-1136): run the runtime-check builder when a runtime check is
needed, apply the zero-comparison rule and the threshold rule. The
classifier outputs are parameters: `needRT0` is Accesses.isRTCheckNeeded(),
`depNeeded` is isDependencyCheckNeeded(), `aliasSets` the alias-set
partition. Returns (NeedRTCheck, CanDoRT, descriptor entries). -/
def mainPhaseRT (threshold loopId : Nat) (needRT0 depNeeded : Bool)
    (aliasSets : List (List RTPtr)) : Bool × Bool × List RTEntry :=
  let r0 := if needRT0 then canCheckPtrAtRT loopId depNeeded aliasSets false
            else (false, 0, [])
  -- If we only have one set of dependences to check pointers among we don't
  -- need a runtime check (line 1113).
  let needRT := if r0.2.1 = 0 ∧ needRT0 = true then false else needRT0
  -- Check that we did not collect too many pointers or found an unsizeable
  -- pointer (line 1118).
  if r0.1 = false ∨ threshold < r0.2.1 then (needRT, false, rtReset.1)
  else (needRT, r0.1, r0.2.2)

/-- The main phase of LoopAccessInfo::analyzeLoop (lines 1095-1184) after
the classifier has built the dependence sets: the runtime-check step
(mainPhaseRT), the dependence checker over the ordered pairs `depPairs`, and
the retry of the builder in stride-checking mode when the checker failed
with a non-constant distance. After resetDepChecks the second
canCheckPtrAtRT call sees isDependencyCheckNeeded() = false. -/
def analyzeMainPhase (cfg : VParams) (threshold loopId : Nat)
    (needRT0 depNeeded : Bool) (aliasSets : List (List RTPtr))
    (depPairs : List DepPairArgs) : DriverOut :=
  let s := mainPhaseRT threshold loopId needRT0 depNeeded aliasSets
  if s.1 = true ∧ s.2.1 = false then
    -- "cannot identify array bounds" (lines 1127-1134)
    ⟨false, rtReset.2, rtReset.1, uintMax, false, false⟩
  else
    -- PtrRtCheck.Need = NeedRTCheck (line 1136)
    if depNeeded then
      let r := areDepsSafe cfg loopId depPairs
      if r.1 = true then ⟨true, s.1, s.2.2, r.2.1, false, false⟩
      else if r.2.2 = true then
        -- Retrying with memory checks (lines 1145-1175): resetDepChecks,
        -- PtrRtCheck.reset, then re-run the builder with ShouldCheckStride
        -- (the cleared CheckDeps makes isDependencyCheckNeeded() false).
        let r2 := canCheckPtrAtRT loopId false aliasSets true
        if r2.1 = false ∨ threshold < r2.2.1 then
          ⟨false, rtReset.2, rtReset.1, r.2.1, true, true⟩
        else ⟨true, true, r2.2.2, r.2.1, true, true⟩
      else ⟨false, s.1, s.2.2, r.2.1, false, false⟩
    else ⟨true, s.1, s.2.2, uintMax, false, false⟩

/-- One instruction of the analyzed loop as the scan of analyzeLoop
(lines 945-998) observes it. -/
inductive Instr where
  | load (ptr : Nat) (info : PtrInfo) (simple : Bool) : Instr
  | store (ptr : Nat) (info : PtrInfo) (simple : Bool) (uniform : Bool) : Instr
  | intrinsicCall : Instr
  | otherReadsMem : Instr
  | otherWritesMem : Instr
  | nonMem : Instr
deriving DecidableEq, Repr

/-- The analyzed loop: its id (for scalar-evolution queries), the
annotated-parallel flag and its instructions in program order. -/
structure LoopIR where
  loopId : Nat
  isAnnotatedParallel : Bool
  instrs : List Instr
deriving DecidableEq, Repr

/-- The instruction scan of analyzeLoop (lines 945-998): collect loads and
stores in program order; reject non-load readers (except recognized
intrinsic calls), non-store writers, and non-simple accesses unless the loop
is annotated parallel. Returns none on rejection. -/
def scanInstrs (parallel : Bool) :
    List Instr → Option (List (Nat × PtrInfo) × List (Nat × PtrInfo × Bool))
  | [] => some ([], [])
  | i :: rest =>
    match i with
    | .load p info simple =>
      if simple = false ∧ parallel = false then none
      else (scanInstrs parallel rest).map
        (fun r => ((p, info) :: r.1, r.2))
    | .store p info simple uniform =>
      if simple = false ∧ parallel = false then none
      else (scanInstrs parallel rest).map
        (fun r => (r.1, (p, info, uniform) :: r.2))
    | .intrinsicCall => scanInstrs parallel rest
    | .otherReadsMem => none
    | .otherWritesMem => none
    | .nonMem => scanInstrs parallel rest

/-- The store loop of analyzeLoop (lines 1022-1049): reject stores to a
uniform (loop-invariant) address; insert each new store pointer into Seen,
counting NumReadWrites. Returns none on a uniform store. -/
def processStores :
    List (Nat × PtrInfo × Bool) → List Nat → Nat → Option (List Nat × Nat)
  | [], seen, nrw => some (seen, nrw)
  | (p, _, uniform) :: rest, seen, nrw =>
    if uniform then none
    else if p ∈ seen then processStores rest seen nrw
    else processStores rest (seen ++ [p]) (nrw + 1)

/-- The load loop of analyzeLoop (lines 1059-1085): every load pointer is
inserted into Seen; a load is flagged read-only (and counted in NumReads)
when its pointer was not seen before or when it has no usable stride.
Returns the classified loads, NumReads, and the final Seen set. -/
def processLoads (loopId : Nat) :
    List (Nat × PtrInfo) → List Nat → List (Nat × PtrInfo × Bool) × Nat × List Nat
  | [], seen => ([], 0, seen)
  | (p, info) :: rest, seen =>
    let fresh := !(decide (p ∈ seen))
    let seen' := if fresh then seen ++ [p] else seen
    let isReadOnly := fresh || (isStridedPtr loopId info = 0)
    let r := processLoads loopId rest seen'
    ((p, info, isReadOnly) :: r.1,
     (if isReadOnly then r.2.1 + 1 else r.2.1), r.2.2)

/-- Embedding of LoopAccessInfo::analyzeLoop (lines 925-1184). The access
classifier (AccessAnalysis::processMemAccesses and the union-find) is an
external collaborator here: its outputs `needRT0`, `depNeeded`, `aliasSets`
and `depPairs` are parameters, only consulted on the main path. -/
def analyzeLoop (cfg : VParams) (threshold : Nat) (loop : LoopIR)
    (needRT0 depNeeded : Bool) (aliasSets : List (List RTPtr))
    (depPairs : List DepPairArgs) : DriverOut :=
  match scanInstrs loop.isAnnotatedParallel loop.instrs with
  | none => ⟨false, false, [], uintMax, false, false⟩
  | some (loads, stores) =>
    -- Check if we see any stores (line 1005).
    if stores.isEmpty then ⟨true, false, [], uintMax, false, false⟩
    else
      match processStores stores [] 0 with
      | none => ⟨false, false, [], uintMax, false, false⟩ -- uniform store
      | some (seen, numReadWrites) =>
        -- A loop annotated parallel skips the memory dependency checks
        -- (line 1051).
        if loop.isAnnotatedParallel then ⟨true, false, [], uintMax, false, false⟩
        else
          let lr := processLoads loop.loopId loads seen
          -- Write-only loop (line 1089).
          if numReadWrites = 1 ∧ lr.2.1 = 0 then
            ⟨true, false, [], uintMax, false, false⟩
          else
            analyzeMainPhase cfg threshold loop.loopId needRT0 depNeeded
              aliasSets depPairs

/-- The loop-shape facts consulted by LoopAccessInfo::canAnalyzeLoop. -/
structure LoopShape where
  isInnermost : Bool
  numBackEdges : Nat
  hasExitingBlock : Bool
  exitingIsLatch : Bool
  backedgeCountComputable : Bool
deriving DecidableEq, Repr

/-- Embedding of LoopAccessInfo::canAnalyzeLoop (lines 876-923). -/
def canAnalyzeLoop (s : LoopShape) : Bool :=
  if s.isInnermost = false then false
  else if s.numBackEdges ≠ 1 then false
  else if s.hasExitingBlock = false then false
  else if s.exitingIsLatch = false then false
  else if s.backedgeCountComputable = false then false
  else true

/-- The LoopAccessInfo constructor (lines 1300-1309): analyzeLoop runs only
when canAnalyzeLoop succeeds; otherwise the conservative result stands
(CanVecMem = false, no runtime check, MaxSafeDepDistBytes = -1U). -/
def loopAccessInfo (shape : LoopShape) (cfg : VParams) (threshold : Nat)
    (loop : LoopIR) (needRT0 depNeeded : Bool)
    (aliasSets : List (List RTPtr)) (depPairs : List DepPairArgs) : DriverOut :=
  if canAnalyzeLoop shape then
    analyzeLoop cfg threshold loop needRT0 depNeeded aliasSets depPairs
  else ⟨false, false, [], uintMax, false, false⟩

/-- The instructions the runtime-check emission helper materializes; the
expression-expander service is abstracted (a bound expansion is one
abstract instruction). -/
inductive RTInstr where
  | expandBound (ptr : Nat) : RTInstr
  | bitcast (ptr : Nat) : RTInstr
  | icmpULE : RTInstr
  | andCmp : RTInstr
  | orRdx : RTInstr
  | finalAnd : RTInstr
deriving DecidableEq, Repr

/-- The pair loop of addRuntimeCheck (lines 1255-1288): for every pair that
needs checking, four bitcasts, two comparisons, their conjunction, and an
or-reduction with the running check. -/
def rtPairInstrs : List RTEntry → Bool → List RTInstr
  | [], _ => []
  | e :: rest, first =>
    let inner := (rest.filter (needsChecking e)).foldl
      (fun (acc : List RTInstr × Bool) f =>
        (acc.1 ++ [.bitcast e.ptr, .bitcast f.ptr, .bitcast e.ptr,
                   .bitcast f.ptr, .icmpULE, .icmpULE, .andCmp] ++
         (if acc.2 then [] else [.orRdx]), false))
      ([], first)
    inner.1 ++ rtPairInstrs rest inner.2

/-- Embedding of LoopAccessInfo::addRuntimeCheck (lines 1215-1298): when the
runtime check is not needed it returns the pair (nullptr, nullptr) without
creating any instruction; otherwise it expands the bounds, emits the
pair-wise overlap checks and a final anchoring `and`, returning the first
emitted instruction and the final check. The returned options are indices
into the emitted instruction list. -/
def addRuntimeCheck (out : DriverOut) :
    (Option Nat × Option Nat) × List RTInstr :=
  if out.need = false then ((none, none), [])
  else
    let bounds := out.entries.foldl
      (fun acc e => acc ++ [RTInstr.expandBound e.ptr]) []
    let checks := rtPairInstrs out.entries true
    let emitted := bounds ++ checks ++ [RTInstr.finalAnd]
    ((some 0, some (emitted.length - 1)), emitted)

/-! Concrete sample data used by the evaluation theorems below. -/

/-- A 4-byte integer element type. -/
def tyI32 : LLVMType := ⟨0, 4⟩

/-- A 4-byte float element type: a different type of the same size. -/
def tyF32 : LLVMType := ⟨1, 4⟩

/-- An i32 pointer advancing by 4 bytes per iteration of loop 1
(element stride 1), in-bounds, no-wrap. -/
def ptrI32 : PtrInfo := ⟨tyI32, false, 0, true, .addRec 1 true (.const 64 4)⟩

/-- A float pointer advancing by 4 bytes per iteration of loop 1. -/
def ptrF32 : PtrInfo := ⟨tyF32, false, 0, true, .addRec 1 true (.const 64 4)⟩

/-- A pointer whose rewritten SCEV is not an add-recurrence (e.g. an
indirect access a[b[i]]): no usable stride. -/
def ptrNoStride : PtrInfo := ⟨tyI32, false, 0, false, .notAddRec⟩

/-- A pointer whose add-recurrence runs over loop 2, not the analyzed
loop 1, with a constant 4-byte step. -/
def ptrOtherLoop : PtrInfo := ⟨tyI32, false, 0, true, .addRec 2 true (.const 64 4)⟩

/-- Default options: autoselect width and interleave. -/
def cfg0 : VParams := ⟨0, 0⟩

/-- A loop shape satisfying every precondition of canAnalyzeLoop. -/
def goodShape : LoopShape := ⟨true, 1, true, true, true⟩

/-! Claim theorems. -/

/-- Claim C3: for every pair of runtime-check descriptor entries,
needsChecking returns true if and only if at least one of the two entries is
a write, their dependence-set ids differ, and their alias-set ids are
equal. -/
theorem C3_needsChecking_iff (e f : RTEntry) :
    needsChecking e f = true ↔
      ((e.isWrite = true ∨ f.isWrite = true) ∧ e.depSetId ≠ f.depSetId ∧
       e.aliasSetId = f.aliasSetId) := by
  unfold needsChecking
  split_ifs with h1 h2 h3
  · simp only [Bool.false_eq_true, false_iff]
    rintro ⟨hw, -, -⟩
    rcases hw with hw | hw
    · exact absurd hw (by simp [h1.1])
    · exact absurd hw (by simp [h1.2])
  · simp only [Bool.false_eq_true, false_iff]
    rintro ⟨-, hd, -⟩
    exact hd h2
  · simp only [Bool.false_eq_true, false_iff]
    rintro ⟨-, -, ha⟩
    exact h3 ha
  · simp only [true_iff]
    refine ⟨?_, h2, by omega⟩
    by_cases he : e.isWrite = true
    · exact Or.inl he
    · right
      rcases Bool.eq_false_or_eq_true f.isWrite with hf | hf
      · exact hf
      · exact absurd ⟨Bool.eq_false_iff.mpr he, hf⟩ h1

/-- Claim C10: when the analysis result has need_runtime_check = false, the
runtime-check emission helper returns the pair (null, null) and inserts no
instructions. -/
theorem C10_addRuntimeCheck_noNeed (out : DriverOut) (h : out.need = false) :
    addRuntimeCheck out = ((none, none), []) := by
  unfold addRuntimeCheck
  simp [h]

/-- Witness for C10 at a concrete result with Need = false. -/
theorem C10_addRuntimeCheck_noNeed_witness :
    addRuntimeCheck ⟨true, false, [], uintMax, false, false⟩ =
      ((none, none), []) :=
  C10_addRuntimeCheck_noNeed ⟨true, false, [], uintMax, false, false⟩ rfl

/-- Claim C2 (failing input): the stride analyzer returns the non-zero
stride 1 for a pointer whose add-recurrence runs over loop 2 while loop 1 is
analyzed. The source's loop-match test (line 611) has a debug-only body and
is missing its `return 0`, contradicting the comment above it ("The accesss
function must stride over the innermost loop") and the spec's requirement
that the recurrence be over the analyzed loop. -/
theorem C2_isStridedPtr_ignores_loop :
    isStridedPtr 1 ptrOtherLoop = 1 ∧
    ptrOtherLoop.scev = .addRec 2 true (.const 64 4) := by
  constructor
  · decide
  · rfl

/-- Counterexample to claim C1 as stated: a pair with equal non-zero
strides, a constant positive distance 4, at least one write and equal
4-byte access sizes is declared safe by the checker although 4 < 2·T = 8:
the positive-distance early acceptance keys on type inequality
(i32 vs float), not on size inequality as the claim says. -/
theorem C1_counterexample :
    isDependent cfg0 1 uintMax ptrI32 ptrF32 true true (some 4) =
      ⟨false, uintMax, false⟩ ∧
    ptrI32.elemTy.allocSize = ptrF32.elemTy.allocSize ∧
    isStridedPtr 1 ptrI32 = 1 ∧ isStridedPtr 1 ptrF32 = 1 ∧
    ¬ (2 * ptrI32.elemTy.allocSize ≤ 4) := by
  decide

/-- Counterexample to claim C5 as stated: an ordered pair of two reads with
equal non-zero strides and a non-constant symbolic distance returns safe and
does not set the retry flag (the two-reads early exit fires before the
distance is examined). -/
theorem C5_counterexample :
    isDependent cfg0 1 uintMax ptrI32 ptrI32 false false none =
      ⟨false, uintMax, false⟩ ∧
    isStridedPtr 1 ptrI32 = 1 := by
  decide

/-- Counterexample to claim C6 as stated: a load through a pointer that no
store touches and whose access is not consecutive (no usable stride) is
classified read-only by the load loop, not read-write as the claim says
(seen set [2] holds the store pointer; load pointer 1 is fresh). -/
theorem C6_counterexample :
    processLoads 1 [(1, ptrNoStride)] [2] =
      ([(1, ptrNoStride, true)], 1, [2, 1]) ∧
    isStridedPtr 1 ptrNoStride = 0 := by
  decide

/-- A loop annotated parallel whose only instruction is a simple store to a
loop-invariant (uniform) address. -/
def parUniformLoop : LoopIR := ⟨1, true, [.store 1 ptrI32 true true]⟩

/-- Counterexample to claim C7 as stated: an annotated-parallel loop passing
all loop-shape preconditions is rejected (can_vectorize = false) because the
uniform-store rejection runs before the annotated-parallel short-circuit. -/
theorem C7_counterexample :
    loopAccessInfo goodShape cfg0 8 parUniformLoop false false [] [] =
      ⟨false, false, [], uintMax, false, false⟩ ∧
    parUniformLoop.isAnnotatedParallel = true ∧
    canAnalyzeLoop goodShape = true := by
  decide

/-- A write pointer without computable bounds (first alias set). -/
def rtBad : RTPtr := ⟨10, true, ptrNoStride, 10⟩

/-- Two write pointers with computable bounds sharing one union-find leader
(second alias set). -/
def rtW1 : RTPtr := ⟨20, true, ptrI32, 20⟩

/-- Second write pointer of the same dependence set as rtW1. -/
def rtW2 : RTPtr := ⟨21, true, ptrI32, 20⟩

/-- Counterexample to claim C9 as stated: the second alias set collapses to
a single dependence set (both entries carry dependence-set id 1), yet the
builder adds 2 comparisons for it, because the zero-comparison exception
also requires the global CanDoRT flag, which the first alias set (a pointer
without computable bounds) has already cleared. -/
theorem C9_counterexample :
    canCheckPtrAtRT 1 true [[rtBad], [rtW1, rtW2]] false =
      (false, 2, [⟨20, true, 1, 2, 0⟩, ⟨21, true, 1, 2, 0⟩]) ∧
    hasComputableBounds ptrNoStride = false := by
  decide

/-- couldPreventStoreLoadForward never increases MaxSafeDepDistBytes. -/
theorem couldPreventStoreLoadForward_snd_le (ms d T : Nat) :
    (couldPreventStoreLoadForward ms d T).2 ≤ ms := by
  cases h : slfFirstBroken d T
      (if ms < maxVectorWidth * T then ms else maxVectorWidth * T) (2 * T) with
  | none =>
    simp only [couldPreventStoreLoadForward, h]
    split_ifs <;> first | exact le_rfl | omega
  | some vf =>
    simp only [couldPreventStoreLoadForward, h]
    split_ifs <;> first | exact le_rfl | omega

/-- The negative-distance case never increases MaxSafeDepDistBytes. -/
theorem depCoreNeg_maxSafe_le (ms : Nat) (q : DepQ) (v : Int) :
    (depCoreNeg ms q v).maxSafe ≤ ms := by
  unfold depCoreNeg
  by_cases h1 : q.aW = true ∧ q.bW = false
  · rw [if_pos h1]
    dsimp only
    split_ifs
    · exact couldPreventStoreLoadForward_snd_le ..
    · exact couldPreventStoreLoadForward_snd_le ..
  · rw [if_neg h1]

/-- The positive-distance case never increases MaxSafeDepDistBytes. -/
theorem depCorePos_maxSafe_le (cfg : VParams) (ms : Nat) (q : DepQ) (v : Int) :
    (depCorePos cfg ms q v).maxSafe ≤ ms := by
  unfold depCorePos
  by_cases h1 : q.aTy ≠ q.bTy
  · rw [if_pos h1]
  · rw [if_neg h1]
    dsimp only
    split_ifs <;>
      first
        | exact le_rfl
        | exact couldPreventStoreLoadForward_snd_le ..
        | exact le_trans (couldPreventStoreLoadForward_snd_le ..)
            (Nat.le_of_lt (by assumption))
        | exact Nat.le_of_lt (by assumption)

/-- depCore never increases MaxSafeDepDistBytes. -/
theorem depCore_maxSafe_le (cfg : VParams) (ms : Nat) (q : DepQ) :
    (depCore cfg ms q).maxSafe ≤ ms := by
  unfold depCore
  by_cases h : (q.sA = 0 ∨ q.sB = 0 ∨ q.sA ≠ q.sB)
  · rw [if_pos h]
  · rw [if_neg h]
    cases hd : q.dist with
    | none => exact le_rfl
    | some v =>
      dsimp only
      by_cases h1 : v < 0
      · rw [if_pos h1]; exact depCoreNeg_maxSafe_le ..
      · rw [if_neg h1]
        by_cases h2 : v = 0
        · rw [if_pos h2]
          split_ifs <;> exact le_rfl
        · rw [if_neg h2]; exact depCorePos_maxSafe_le ..

/-- isDependent never increases MaxSafeDepDistBytes. -/
theorem isDependent_maxSafe_le (cfg : VParams) (loopId ms : Nat)
    (A B : PtrInfo) (aW bW : Bool) (distBA : Option Int) :
    (isDependent cfg loopId ms A B aW bW distBA).maxSafe ≤ ms := by
  unfold isDependent
  by_cases h1 : aW = false ∧ bW = false
  · rw [if_pos h1]
  · rw [if_neg h1]
    by_cases h2 : A.addrSpace ≠ B.addrSpace
    · rw [if_pos h2]
    · rw [if_neg h2]
      exact depCore_maxSafe_le ..

/-- The pair loop of areDepsSafe never increases MaxSafeDepDistBytes. -/
theorem areDepsSafeGo_maxSafe_le (cfg : VParams) (loopId : Nat) :
    ∀ (pairs : List DepPairArgs) (ms : Nat) (retry : Bool),
      (areDepsSafeGo cfg loopId pairs ms retry).2.1 ≤ ms := by
  intro pairs
  induction pairs with
  | nil => intro ms retry; simp [areDepsSafeGo]
  | cons p rest ih =>
    intro ms retry
    simp only [areDepsSafeGo]
    split_ifs with h
    · exact isDependent_maxSafe_le ..
    · exact le_trans (ih ..) (isDependent_maxSafe_le ..)

/-- Checking additional pairs can only shrink MaxSafeDepDistBytes (a run
that stops early at an unsafe pair is simply unchanged). -/
theorem areDepsSafeGo_append (cfg : VParams) (loopId : Nat)
    (pairs rest : List DepPairArgs) :
    ∀ (ms : Nat) (retry : Bool),
      (areDepsSafeGo cfg loopId (pairs ++ rest) ms retry).2.1 ≤
        (areDepsSafeGo cfg loopId pairs ms retry).2.1 := by
  induction pairs with
  | nil =>
    intro ms retry
    simp only [List.nil_append, areDepsSafeGo]
    exact areDepsSafeGo_maxSafe_le ..
  | cons p ps ih =>
    intro ms retry
    simp only [List.cons_append, areDepsSafeGo]
    split_ifs with h
    · exact le_rfl
    · exact ih ..

/-- Claim C8: during one run of the dependence checker,
MaxSafeDepDistBytes starts at UINT_MAX (-1U): every isDependent call either
leaves it unchanged or decreases it, and checking additional pairs can only
shrink the final value (unless the run already returned unsafe). -/
theorem C8_maxSafe_monotone :
    (∀ (cfg : VParams) (loopId ms : Nat) (A B : PtrInfo) (aW bW : Bool)
       (distBA : Option Int),
       (isDependent cfg loopId ms A B aW bW distBA).maxSafe ≤ ms) ∧
    (∀ (cfg : VParams) (loopId : Nat) (pairs : List DepPairArgs),
       areDepsSafe cfg loopId pairs =
         areDepsSafeGo cfg loopId pairs uintMax false ∧
       (areDepsSafe cfg loopId pairs).2.1 ≤ uintMax) ∧
    (∀ (cfg : VParams) (loopId : Nat) (pairs rest : List DepPairArgs),
       (areDepsSafe cfg loopId (pairs ++ rest)).2.1 ≤
         (areDepsSafe cfg loopId pairs).2.1) :=
  ⟨fun cfg loopId ms A B aW bW distBA =>
      isDependent_maxSafe_le cfg loopId ms A B aW bW distBA,
   fun cfg loopId pairs => ⟨rfl, areDepsSafeGo_maxSafe_le ..⟩,
   fun cfg loopId pairs rest => areDepsSafeGo_append cfg loopId pairs rest ..⟩

/-- The effective maximum vector width computed by the store-to-load
forwarding check, in the spec's words: scan the candidate widths
2T, 4T, 8T, ... up to min(MaxSafeDepDistBytes, MaxVectorWidth·T); the first
broken width vf caps the maximum at vf/2, otherwise the bound stands. -/
def slfEffectiveMaxWidth (ms d T : Nat) : Nat :=
  match slfFirstBroken d T (min ms (maxVectorWidth * T)) (2 * T) with
  | some vf => vf / 2
  | none => min ms (maxVectorWidth * T)

/-- What a successful slfFirstBroken scan means (fuel-indexed induction):
the returned width is within the bound, is broken, is one of the scanned
candidates vf·2^i, and every smaller candidate is not broken. -/
theorem slfFirstBroken_some_spec (d T : Nat) :
    ∀ (fuel bound vf v : Nat), bound + 1 - vf ≤ fuel → 0 < vf →
      slfFirstBroken d T bound vf = some v →
      v ≤ bound ∧ (d % v ≠ 0 ∧ d / v < 8 * T) ∧
      (∃ i, v = vf * 2 ^ i) ∧
      (∀ i, vf * 2 ^ i < v →
         ¬(d % (vf * 2 ^ i) ≠ 0 ∧ d / (vf * 2 ^ i) < 8 * T)) := by
  intro fuel
  induction fuel with
  | zero =>
    intro bound vf v hfuel hpos h
    unfold slfFirstBroken at h
    rw [if_neg (by omega : ¬ vf = 0), if_pos (by omega : bound < vf)] at h
    exact absurd h (by simp)
  | succ n ih =>
    intro bound vf v hfuel hpos h
    unfold slfFirstBroken at h
    rw [if_neg (by omega : ¬ vf = 0)] at h
    by_cases hb : bound < vf
    · rw [if_pos hb] at h
      exact absurd h (by simp)
    · rw [if_neg hb] at h
      by_cases hbrk : d % vf ≠ 0 ∧ d / vf < 8 * T
      · rw [if_pos hbrk] at h
        have hv : vf = v := Option.some.inj h
        subst hv
        refine ⟨by omega, hbrk, ⟨0, by simp⟩, ?_⟩
        intro i hi
        have hvp : vf ≤ vf * 2 ^ i :=
          Nat.le_mul_of_pos_right vf (pow_pos (by norm_num) i)
        omega
      · rw [if_neg hbrk] at h
        obtain ⟨hle, hbk, ⟨i, hi⟩, hmin⟩ :=
          ih bound (2 * vf) v (by omega) (by omega) h
        refine ⟨hle, hbk, ⟨i + 1, by rw [hi]; ring⟩, ?_⟩
        intro j hj
        cases j with
        | zero => simpa using hbrk
        | succ k =>
          have he : vf * 2 ^ (k + 1) = (2 * vf) * 2 ^ k := by ring
          rw [he] at hj ⊢
          exact hmin k hj

/-- What an exhausted slfFirstBroken scan means: no candidate width within
the bound is broken. -/
theorem slfFirstBroken_none_spec (d T : Nat) :
    ∀ (fuel bound vf : Nat), bound + 1 - vf ≤ fuel → 0 < vf →
      slfFirstBroken d T bound vf = none →
      ∀ i, vf * 2 ^ i ≤ bound →
        ¬(d % (vf * 2 ^ i) ≠ 0 ∧ d / (vf * 2 ^ i) < 8 * T) := by
  intro fuel
  induction fuel with
  | zero =>
    intro bound vf hfuel hpos h i hle
    have hvp : vf ≤ vf * 2 ^ i :=
      Nat.le_mul_of_pos_right vf (pow_pos (by norm_num) i)
    omega
  | succ n ih =>
    intro bound vf hfuel hpos h i hle
    unfold slfFirstBroken at h
    rw [if_neg (by omega : ¬ vf = 0)] at h
    by_cases hb : bound < vf
    · have hvp : vf ≤ vf * 2 ^ i :=
        Nat.le_mul_of_pos_right vf (pow_pos (by norm_num) i)
      omega
    · rw [if_neg hb] at h
      by_cases hbrk : d % vf ≠ 0 ∧ d / vf < 8 * T
      · rw [if_pos hbrk] at h
        exact absurd h (by simp)
      · rw [if_neg hbrk] at h
        cases i with
        | zero => simpa using hbrk
        | succ k =>
          have he : vf * 2 ^ (k + 1) = (2 * vf) * 2 ^ k := by ring
          rw [he] at hle ⊢
          exact ih bound (2 * vf) (by omega) (by omega) h k hle

/-- Claim C4: for every distance d and element byte size T > 0, the
store-to-load forwarding check scans the widths 2T, 4T, 8T, ... up to
min(MaxSafeDepDistBytes, MaxVectorWidth·T), stopping at the first width vf
with d mod vf ≠ 0 and d / vf < 8·T (every smaller candidate not being
broken), the effective maximum width being vf/2 (the bound when no candidate
is broken), and it reports the dependence unsafe exactly when the resulting
maximum width is below 2T. -/
theorem C4_storeLoadForward (ms d T : Nat) (hT : 0 < T) :
    ((couldPreventStoreLoadForward ms d T).1 = true ↔
        slfEffectiveMaxWidth ms d T < 2 * T) ∧
    (∀ vf, slfFirstBroken d T (min ms (maxVectorWidth * T)) (2 * T) = some vf →
        vf ≤ min ms (maxVectorWidth * T) ∧ (d % vf ≠ 0 ∧ d / vf < 8 * T) ∧
        (∃ i, vf = 2 * T * 2 ^ i) ∧
        (∀ j, 2 * T * 2 ^ j < vf →
           ¬(d % (2 * T * 2 ^ j) ≠ 0 ∧ d / (2 * T * 2 ^ j) < 8 * T))) ∧
    (slfFirstBroken d T (min ms (maxVectorWidth * T)) (2 * T) = none →
        ∀ i, 2 * T * 2 ^ i ≤ min ms (maxVectorWidth * T) →
          ¬(d % (2 * T * 2 ^ i) ≠ 0 ∧ d / (2 * T * 2 ^ i) < 8 * T)) := by
  refine ⟨?_,
    fun vf h =>
      slfFirstBroken_some_spec d T (min ms (maxVectorWidth * T) + 1 - 2 * T)
        (min ms (maxVectorWidth * T)) (2 * T) vf le_rfl (by omega) h,
    fun h i =>
      slfFirstBroken_none_spec d T (min ms (maxVectorWidth * T) + 1 - 2 * T)
        (min ms (maxVectorWidth * T)) (2 * T) le_rfl (by omega) h i⟩
  have hb : (if ms < maxVectorWidth * T then ms else maxVectorWidth * T) =
      min ms (maxVectorWidth * T) := by
    split_ifs with h <;> omega
  simp only [couldPreventStoreLoadForward, slfEffectiveMaxWidth]
  rw [hb]
  cases hs : slfFirstBroken d T (min ms (maxVectorWidth * T)) (2 * T) with
  | some vf => split_ifs with h1 h2 <;> simp [h1]
  | none => split_ifs with h1 h2 <;> simp [h1]

/-- Witness for C4 at T = 4, d = 16, MaxSafeDepDistBytes = UINT_MAX. -/
theorem C4_storeLoadForward_witness :
    0 < 4 ∧
    ((couldPreventStoreLoadForward uintMax 16 4).1 = true ↔
       slfEffectiveMaxWidth uintMax 16 4 < 2 * 4) :=
  ⟨by decide, (C4_storeLoadForward uintMax 16 4 (by decide)).1⟩

/-- Claim C1 (amended): for every ordered access pair in the same
equivalence class with at least one write, pointers in the same address
space, equal non-zero strides and a constant positive byte distance
d < 2^32 after the negative-stride swap: the checker returns safe when the
two access types are unequal as types (even when their sizes agree);
otherwise (equal types) it returns safe only if d ≥ 2·T,
2·T ≤ max_safe_distance_bytes, and d ≥ T·forced_interleave·forced_factor,
and, when the earlier access is the read, only if store-to-load forwarding
is not broken at distance d against the lowered limit min(d, previous). -/
theorem C1_positiveDistance (cfg : VParams) (loopId ms : Nat) (A B : PtrInfo)
    (aW bW : Bool) (distBA : Option Int) (q : DepQ) (d : Int)
    (hw : aW = true ∨ bW = true)
    (has : A.addrSpace = B.addrSpace)
    (hq : q = depSwapped loopId A B aW bW distBA)
    (hsz : q.sA ≠ 0) (hseq : q.sA = q.sB)
    (hdist : q.dist = some d) (hdpos : 0 < d) (hdlt : d < 4294967296) :
    (q.aTy ≠ q.bTy →
       (isDependent cfg loopId ms A B aW bW distBA).isDep = false) ∧
    (q.aTy = q.bTy →
       (isDependent cfg loopId ms A B aW bW distBA).isDep = false →
       2 * q.aTy.allocSize ≤ d.toNat ∧ 2 * q.aTy.allocSize ≤ ms ∧
       q.aTy.allocSize *
         (if cfg.vectorizationInterleave = 0 then 1
          else cfg.vectorizationInterleave) *
         (if cfg.vectorizationFactor = 0 then 1
          else cfg.vectorizationFactor) ≤ d.toNat ∧
       (q.aW = false ∧ q.bW = true →
          (couldPreventStoreLoadForward (min d.toNat ms) d.toNat
            q.aTy.allocSize).1 = false)) := by
  have h1 : ¬(aW = false ∧ bW = false) := by
    rcases hw with h | h <;> simp [h]
  have h2 : ¬(A.addrSpace ≠ B.addrSpace) := by simp [has]
  have hid : isDependent cfg loopId ms A B aW bW distBA = depCore cfg ms q := by
    unfold isDependent
    rw [if_neg h1, if_neg h2, ← hq]
  rw [hid]
  have hguard : ¬(q.sA = 0 ∨ q.sB = 0 ∨ q.sA ≠ q.sB) := by
    push_neg
    exact ⟨hsz, hseq ▸ hsz, hseq⟩
  unfold depCore
  rw [if_neg hguard, hdist]
  dsimp only
  rw [if_neg (by omega : ¬ d < 0), if_neg (by omega : ¬ d = 0)]
  constructor
  · intro hty
    unfold depCorePos
    rw [if_pos hty]
  · intro hty hsafe
    unfold depCorePos at hsafe
    rw [if_neg (by simp [hty])] at hsafe
    dsimp only at hsafe
    have hdn : d.toNat % 4294967296 = d.toNat := Nat.mod_eq_of_lt (by omega)
    rw [hdn] at hsafe
    by_cases hc : (d.toNat < 2 * q.aTy.allocSize ∨ ms < 2 * q.aTy.allocSize ∨
        d.toNat < q.aTy.allocSize *
          (if cfg.vectorizationInterleave = 0 then 1
           else cfg.vectorizationInterleave) *
          (if cfg.vectorizationFactor = 0 then 1
           else cfg.vectorizationFactor))
    · rw [if_pos hc] at hsafe
      exact absurd hsafe (by simp)
    · rw [if_neg hc] at hsafe
      push_neg at hc
      obtain ⟨hc1, hc2, hc3⟩ := hc
      refine ⟨hc1, hc2, hc3, ?_⟩
      intro hrd
      rw [if_pos hrd] at hsafe
      have hmin : (if d.toNat < ms then d.toNat else ms) = min d.toNat ms := by
        split_ifs <;> omega
      rw [hmin] at hsafe
      by_cases hr : (couldPreventStoreLoadForward (min d.toNat ms) d.toNat
          q.aTy.allocSize).1 = true
      · rw [if_pos hr] at hsafe
        exact absurd hsafe (by simp)
      · simpa using hr

/-- Witness for C1 at a pair of identically-typed i32 accesses with
distance 8, write before read: the type-inequality branch is exercised at a
second pair (i32 before float). -/
theorem C1_positiveDistance_witness :
    (isDependent cfg0 1 uintMax ptrI32 ptrF32 true true (some 4)).isDep = false :=
  (C1_positiveDistance cfg0 1 uintMax ptrI32 ptrF32 true true (some 4)
      (depSwapped 1 ptrI32 ptrF32 true true (some 4)) 4
      (Or.inl rfl) rfl rfl (by decide) (by decide) (by decide) (by decide)
      (by decide)).1 (by decide)

/-- Claim C5 (amended): for every ordered access pair with at least one
write, pointers in the same address space and equal non-zero strides, a
non-constant symbolic distance makes the checker set the retry flag and
return unsafe; and whenever the dependence check fails with the retry flag
set (and the runtime-check step did not already fail the loop), the driver
clears the dependence-check state and re-runs the runtime-check builder in
stride-checking mode with per-pointer dependence ids, accepting exactly when
that second run is feasible and within the threshold. -/
theorem C5_nonConstantDistance :
    (∀ (cfg : VParams) (loopId ms : Nat) (A B : PtrInfo) (aW bW : Bool)
       (s : Int),
       (aW = true ∨ bW = true) → A.addrSpace = B.addrSpace →
       isStridedPtr loopId A = s → isStridedPtr loopId B = s → s ≠ 0 →
       isDependent cfg loopId ms A B aW bW none = ⟨true, ms, true⟩) ∧
    (∀ (cfg : VParams) (threshold loopId : Nat) (needRT0 : Bool)
       (aliasSets : List (List RTPtr)) (depPairs : List DepPairArgs),
       ¬((mainPhaseRT threshold loopId needRT0 true aliasSets).1 = true ∧
         (mainPhaseRT threshold loopId needRT0 true aliasSets).2.1 = false) →
       (areDepsSafe cfg loopId depPairs).1 = false →
       (areDepsSafe cfg loopId depPairs).2.2 = true →
       (analyzeMainPhase cfg threshold loopId needRT0 true aliasSets
          depPairs).ranStrideBuilder = true ∧
       (analyzeMainPhase cfg threshold loopId needRT0 true aliasSets
          depPairs).clearedDepChecks = true ∧
       ((analyzeMainPhase cfg threshold loopId needRT0 true aliasSets
           depPairs).canVecMem = true ↔
          ¬((canCheckPtrAtRT loopId false aliasSets true).1 = false ∨
            threshold < (canCheckPtrAtRT loopId false aliasSets true).2.1)) ∧
       ((analyzeMainPhase cfg threshold loopId needRT0 true aliasSets
           depPairs).canVecMem = true →
          (analyzeMainPhase cfg threshold loopId needRT0 true aliasSets
             depPairs).need = true ∧
          (analyzeMainPhase cfg threshold loopId needRT0 true aliasSets
             depPairs).entries =
            (canCheckPtrAtRT loopId false aliasSets true).2.2)) := by
  constructor
  · intro cfg loopId ms A B aW bW s hw has hA hB hs
    have h1 : ¬(aW = false ∧ bW = false) := by
      rcases hw with h | h <;> simp [h]
    have h2 : ¬(A.addrSpace ≠ B.addrSpace) := by simp [has]
    unfold isDependent
    rw [if_neg h1, if_neg h2]
    unfold depSwapped
    rw [hA, hB]
    by_cases hneg : s < 0
    · rw [if_pos hneg]
      unfold depCore
      rw [if_neg (by push_neg; exact ⟨hs, hs, rfl⟩)]
      rfl
    · rw [if_neg hneg]
      unfold depCore
      rw [if_neg (by push_neg; exact ⟨hs, hs, rfl⟩)]
  · intro cfg threshold loopId needRT0 aliasSets depPairs hEarly hdep hretry
    unfold analyzeMainPhase
    rw [if_neg hEarly, if_pos rfl]
    dsimp only
    rw [if_neg (by simp [hdep]), if_pos hretry]
    by_cases hr2 : ((canCheckPtrAtRT loopId false aliasSets true).1 = false ∨
        threshold < (canCheckPtrAtRT loopId false aliasSets true).2.1)
    · rw [if_pos hr2]
      refine ⟨rfl, rfl, ?_, ?_⟩
      · simp [hr2]
      · intro h
        exact absurd h (by simp)
    · rw [if_neg hr2]
      exact ⟨rfl, rfl, by simp [hr2], fun _ => ⟨rfl, rfl⟩⟩

/-- Witness for C5: a write/read pair of unit-stride i32 pointers with a
non-constant distance, and a driver run on that pair that re-runs the
builder in stride-checking mode and accepts. -/
theorem C5_nonConstantDistance_witness :
    isDependent cfg0 1 uintMax ptrI32 ptrI32 true false none =
      ⟨true, uintMax, true⟩ ∧
    (analyzeMainPhase cfg0 8 1 true true []
       [⟨ptrI32, ptrI32, true, false, none⟩]).ranStrideBuilder = true ∧
    (analyzeMainPhase cfg0 8 1 true true []
       [⟨ptrI32, ptrI32, true, false, none⟩]).canVecMem = true :=
  ⟨C5_nonConstantDistance.1 cfg0 1 uintMax ptrI32 ptrI32 true false 1
      (Or.inl rfl) rfl (by decide) (by decide) (by decide),
   (C5_nonConstantDistance.2 cfg0 8 1 true []
      [⟨ptrI32, ptrI32, true, false, none⟩] (by decide) (by decide)
      (by decide)).1,
   by decide⟩

/-- Claim C6 (amended): the load loop keeps the loads in order, and a load's
pointer is classified read-only if and only if it was not seen before (no
store through it and no earlier load of it) or the stride analysis returns 0
(no usable stride); in particular a non-consecutive read is marked
read-only — forcing it into the dependence check — not read-write. -/
theorem C6_readOnlyClassification (loopId : Nat) :
    ∀ (loads : List (Nat × PtrInfo)) (seen0 : List Nat),
      ((processLoads loopId loads seen0).1.map (fun x => (x.1, x.2.1)) =
         loads) ∧
      (∀ (k : Nat) (p : Nat) (info : PtrInfo) (ro : Bool),
        (processLoads loopId loads seen0).1.get? k = some (p, info, ro) →
        (ro = true ↔
          ((p ∉ seen0 ∧ p ∉ (loads.take k).map Prod.fst) ∨
           isStridedPtr loopId info = 0))) := by
  intro loads
  induction loads with
  | nil =>
    intro seen0
    refine ⟨rfl, ?_⟩
    intro k p info ro h
    simp [processLoads] at h
  | cons hd tl ih =>
    intro seen0
    obtain ⟨p0, info0⟩ := hd
    constructor
    · simp only [processLoads]
      rw [List.map_cons]
      exact congrArg (List.cons (p0, info0)) (ih _).1
    · intro k p info ro h
      cases k with
      | zero =>
        simp only [processLoads, List.get?_cons_zero, Option.some.injEq,
          Prod.mk.injEq] at h
        obtain ⟨hp, hinfo, hro⟩ := h
        subst hp
        subst hinfo
        subst hro
        simp
      | succ k =>
        simp only [processLoads, List.get?_cons_succ] at h
        have hrec := (ih _).2 k p info ro h
        rw [hrec]
        have hsplit :
            (p ∉ (if !(decide (p0 ∈ seen0)) then seen0 ++ [p0] else seen0) ∧
               p ∉ (tl.take k).map Prod.fst) ↔
            (p ∉ seen0 ∧
               p ∉ (((p0, info0) :: tl).take (k + 1)).map Prod.fst) := by
          rw [List.take_succ_cons, List.map_cons]
          by_cases hps : p0 ∈ seen0
          · rw [if_neg (by simp [hps])]
            simp only [List.mem_cons]
            constructor
            · rintro ⟨h1, h2⟩
              refine ⟨h1, ?_⟩
              rintro (he | hm)
              · exact h1 (he ▸ hps)
              · exact h2 hm
            · rintro ⟨h1, h2⟩
              exact ⟨h1, fun hm => h2 (Or.inr hm)⟩
          · rw [if_pos (by simp [hps])]
            simp only [List.mem_append, List.mem_singleton, List.mem_cons,
              List.not_mem_nil, or_false]
            constructor
            · rintro ⟨h1, h2⟩
              refine ⟨fun hm => h1 (Or.inl hm), ?_⟩
              rintro (he | hm)
              · exact h1 (Or.inr he)
              · exact h2 hm
            · rintro ⟨h1, h2⟩
              refine ⟨?_, fun hm => h2 (Or.inr hm)⟩
              rintro (hm | he)
              · exact h1 hm
              · exact h2 (Or.inl he)
        rw [hsplit]

/-- Witness for C6: the single non-strided load of pointer 1, with a store
to pointer 2 already seen, is classified read-only. -/
theorem C6_readOnlyClassification_witness :
    ((true : Bool) = true ↔
      (((1 : Nat) ∉ [(2 : Nat)] ∧
        (1 : Nat) ∉ (([((1 : Nat), ptrNoStride)].take 0).map Prod.fst)) ∨
       isStridedPtr 1 ptrNoStride = 0)) :=
  (C6_readOnlyClassification 1 [(1, ptrNoStride)] [2]).2 0 1 ptrNoStride true
    (by decide)

/-- Claim C7 (amended): an annotated-parallel loop passing the loop-shape
preconditions, whose instruction scan succeeds (every memory reader a load
or recognized intrinsic, every writer a store; non-simple accesses allowed
because the loop is parallel) and whose stores all write non-loop-invariant
addresses, is accepted with can_vectorize = true and
need_runtime_check = false regardless of the rest of the access pattern. -/
theorem C7_annotatedParallel (shape : LoopShape) (cfg : VParams)
    (threshold : Nat) (loop : LoopIR) (needRT0 depNeeded : Bool)
    (aliasSets : List (List RTPtr)) (depPairs : List DepPairArgs)
    (loads : List (Nat × PtrInfo)) (stores : List (Nat × PtrInfo × Bool))
    (seen : List Nat) (nrw : Nat)
    (hshape : canAnalyzeLoop shape = true)
    (hpar : loop.isAnnotatedParallel = true)
    (hscan : scanInstrs loop.isAnnotatedParallel loop.instrs =
      some (loads, stores))
    (hstores : processStores stores [] 0 = some (seen, nrw)) :
    (loopAccessInfo shape cfg threshold loop needRT0 depNeeded aliasSets
       depPairs).canVecMem = true ∧
    (loopAccessInfo shape cfg threshold loop needRT0 depNeeded aliasSets
       depPairs).need = false := by
  unfold loopAccessInfo
  rw [if_pos hshape]
  unfold analyzeLoop
  rw [hscan]
  dsimp only
  by_cases hemp : stores.isEmpty = true
  · rw [if_pos hemp]
    exact ⟨rfl, rfl⟩
  · rw [if_neg hemp, hstores]
    dsimp only
    rw [if_pos hpar]
    exact ⟨rfl, rfl⟩

/-- A loop annotated parallel with a non-uniform simple store and a
non-simple load (allowed because of the parallel annotation). -/
def parOkLoop : LoopIR :=
  ⟨1, true, [.store 1 ptrI32 true false, .load 2 ptrNoStride false]⟩

/-- Witness for C7 at parOkLoop. -/
theorem C7_annotatedParallel_witness :
    (loopAccessInfo goodShape cfg0 8 parOkLoop false false [] []).canVecMem =
      true ∧
    (loopAccessInfo goodShape cfg0 8 parOkLoop false false [] []).need =
      false :=
  C7_annotatedParallel goodShape cfg0 8 parOkLoop false false [] []
    [(2, ptrNoStride)] [(1, ptrI32, false)] [1] 1 (by decide) rfl
    (by decide) (by decide)

/-- The bounds / dependence-id part of the per-pointer loop does not touch
the read/write counters. -/
theorem rtStepBody_counts (loopId : Nat) (depNeeded stride : Bool)
    (asid : Nat) (acc : ASAcc) (a : RTPtr) :
    (rtStepBody loopId depNeeded stride asid acc a).numWrite = acc.numWrite ∧
    (rtStepBody loopId depNeeded stride asid acc a).numRead = acc.numRead := by
  unfold rtStepBody
  split_ifs with h1 h2
  · cases lookupDepId acc.depMap a.leader <;> exact ⟨rfl, rfl⟩
  · exact ⟨rfl, rfl⟩
  · exact ⟨rfl, rfl⟩

/-- One per-pointer step bumps exactly one of the two counters. -/
theorem rtStepPtr_counts (loopId : Nat) (depNeeded stride : Bool)
    (asid : Nat) (acc : ASAcc) (a : RTPtr) :
    (rtStepPtr loopId depNeeded stride asid acc a).numWrite =
      acc.numWrite + (if a.isWrite = true then 1 else 0) ∧
    (rtStepPtr loopId depNeeded stride asid acc a).numRead =
      acc.numRead + (if a.isWrite = true then 0 else 1) := by
  obtain ⟨hw, hr⟩ := rtStepBody_counts loopId depNeeded stride asid
    (if a.isWrite then { acc with numWrite := acc.numWrite + 1 }
     else { acc with numRead := acc.numRead + 1 }) a
  unfold rtStepPtr
  rw [hw, hr]
  cases ha : a.isWrite <;> simp [ha]

/-- After the per-set fold, the counters hold the numbers of write and read
pointers of the alias set. -/
theorem rtFold_counts (loopId : Nat) (depNeeded stride : Bool) (asid : Nat) :
    ∀ (as : List RTPtr) (acc : ASAcc),
      (as.foldl (rtStepPtr loopId depNeeded stride asid) acc).numWrite =
        acc.numWrite + as.countP (fun a => a.isWrite) ∧
      (as.foldl (rtStepPtr loopId depNeeded stride asid) acc).numRead =
        acc.numRead + as.countP (fun a => !a.isWrite) := by
  intro as
  induction as with
  | nil => intro acc; simp
  | cons a tl ih =>
    intro acc
    simp only [List.foldl_cons, List.countP_cons]
    obtain ⟨hw, hr⟩ := ih (rtStepPtr loopId depNeeded stride asid acc a)
    obtain ⟨hw1, hr1⟩ := rtStepPtr_counts loopId depNeeded stride asid acc a
    rw [hw, hr, hw1, hr1]
    cases ha : a.isWrite <;> simp [ha] <;> omega

/-- Claim C9 (amended): for every alias set, the builder adds
writes × (reads + writes − 1) expected comparisons, except that zero
comparisons are added when dependence checking is needed, the running
dependence-set id stopped at 2 (the set collapsed to a single dependence
set) and the CanDoRT flag is still true (every pointer inspected so far,
earlier alias sets included, had computable bounds and passed the stride
requirement); and the loop's runtime check fails when a runtime check is
needed and the total exceeds the runtime-memory-check threshold. -/
theorem C9_comparisons :
    (∀ (loopId : Nat) (depNeeded stride : Bool) (asid : Nat)
       (canDoRT : Bool) (as : List RTPtr),
       (rtProcessSet loopId depNeeded stride asid canDoRT as).2 =
         (if depNeeded = true ∧
             (rtProcessSet loopId depNeeded stride asid canDoRT
               as).1.canDoRT = true ∧
             (rtProcessSet loopId depNeeded stride asid canDoRT
               as).1.runningDepId = 2
          then 0
          else (as.countP (fun a => a.isWrite)) *
            ((as.countP (fun a => !a.isWrite)) +
             (as.countP (fun a => a.isWrite)) - 1))) ∧
    (∀ (cfg : VParams) (threshold loopId : Nat) (depNeeded : Bool)
       (aliasSets : List (List RTPtr)) (depPairs : List DepPairArgs),
       (canCheckPtrAtRT loopId depNeeded aliasSets false).2.1 ≠ 0 →
       threshold < (canCheckPtrAtRT loopId depNeeded aliasSets false).2.1 →
       (analyzeMainPhase cfg threshold loopId true depNeeded aliasSets
          depPairs).canVecMem = false) := by
  constructor
  · intro loopId depNeeded stride asid canDoRT as
    unfold rtProcessSet
    dsimp only
    obtain ⟨hw, hr⟩ :=
      rtFold_counts loopId depNeeded stride asid as ⟨0, 0, 1, [], canDoRT, []⟩
    rw [hw, hr]
    simp only [Nat.zero_add]
  · intro cfg threshold loopId depNeeded aliasSets depPairs hne hth
    have hs : mainPhaseRT threshold loopId true depNeeded aliasSets =
        (true, false, rtReset.1) := by
      unfold mainPhaseRT
      dsimp only
      rw [if_pos rfl, if_pos (Or.inr hth), if_neg (by simp [hne])]
    unfold analyzeMainPhase
    rw [hs, if_pos ⟨rfl, rfl⟩]

/-- A write pointer with computable bounds in its own dependence set. -/
def rtW3 : RTPtr := ⟨21, true, ptrI32, 21⟩

/-- Witness for C9: two write pointers in distinct dependence sets need 2
comparisons; with threshold 0 the loop's runtime check fails. -/
theorem C9_comparisons_witness :
    (analyzeMainPhase cfg0 0 1 true true [[rtW1, rtW3]] []).canVecMem =
      false :=
  C9_comparisons.2 cfg0 0 1 true [[rtW1, rtW3]] [] (by decide) (by decide)

end LAA
